import Mathlib

/-
  Verification development for the tiktok_upload repository
  (src/app.py — Flask OAuth + TikTok video upload client;
   src/verify.py — domain-verification file server).

  The Python code is shallowly embedded: JSON values and Python dicts
  become an inductive `JVal` and association lists, the Flask session is an
  association list, and every effectful operation (file seek/tell/read,
  each outbound HTTP request) is an `Except String _` value drawn from an
  explicit environment, so that Python exceptions become `.error` values
  caught exactly where the source catches them.  Outbound network calls
  are recorded in a trace (`List NetCall`).
-/

/-- A JSON value / Python object, as manipulated by app.py.
    `jnull` is Python `None`. -/
inductive JVal where
  | jnull
  | jstr (s : String)
  | jint (n : Int)
  | jbool (b : Bool)
  | jobj (fields : List (String × JVal))

/-- Association-list lookup, embedding Python `dict.get` /
    `x in dict` membership on string-keyed dicts. -/
def alookup {α : Type} : List (String × α) → String → Option α
  | [], _ => none
  | (k, v) :: rest, key => if k = key then some v else alookup rest key

/-- Embedding of Python `dict[key] = value`: replace in place when the key
    exists (insertion order is preserved), else append. -/
def dictSet (d : List (String × JVal)) (k : String) (v : JVal) : List (String × JVal) :=
  match d with
  | [] => [(k, v)]
  | (k2, w) :: rest => if k2 = k then (k, v) :: rest else (k2, w) :: dictSet rest k v

/-- Python truthiness of a JSON value (`bool(x)`). -/
def pyTruthyJ : JVal → Bool
  | .jnull => false
  | .jstr s => !(s == "")
  | .jint n => !(n == 0)
  | .jbool b => b
  | .jobj l => !l.isEmpty

/-- Python `==` between a JSON value and an optional string
    (e.g. `saved_state != state` in the callback handler). -/
def jvalEqOptStr : JVal → Option String → Bool
  | .jstr s, some t => s == t
  | _, _ => false

/-- `isPrefixL n h` : the char list `n` is a prefix of `h`. -/
def isPrefixL : List Char → List Char → Bool
  | [], _ => true
  | _ :: _, [] => false
  | a :: as, b :: bs => a == b && isPrefixL as bs

/-- `isInfixL n h` : the char list `n` occurs contiguously in `h`. -/
def isInfixL (needle : List Char) : List Char → Bool
  | [] => isPrefixL needle []
  | b :: bs => isPrefixL needle (b :: bs) || isInfixL needle bs

/-- Python `pat in hay` substring test. -/
def strContains (hay pat : String) : Bool := isInfixL pat.toList hay.toList

/-- Python `s.startswith(p)`. -/
def strStartsWith (s p : String) : Bool := isPrefixL p.toList s.toList

/-- Python `s.endswith(p)`. -/
def strEndsWith (s p : String) : Bool := isPrefixL p.toList.reverse s.toList.reverse

mutual
/-- Python `repr` of a JSON value (strings in single quotes, dicts in
    braces); used by the source's f-strings that interpolate dicts. -/
def pyReprJ : JVal → String
  | .jnull => "None"
  | .jbool true => "True"
  | .jbool false => "False"
  | .jint n => toString n
  | .jstr s => "\x27" ++ s ++ "\x27"
  | .jobj l => "\x7b" ++ pyReprFields l ++ "\x7d"

def pyReprFields : List (String × JVal) → String
  | [] => ""
  | [(k, v)] => "\x27" ++ k ++ "\x27: " ++ pyReprJ v
  | (k, v) :: rest => "\x27" ++ k ++ "\x27: " ++ pyReprJ v ++ ", " ++ pyReprFields rest
end

/-- Python `str()` of a JSON value, as rendered by f-strings. -/
def pyStrJ : JVal → String
  | .jstr s => s
  | v => pyReprJ v

mutual
/-- Rendering of a JSON value as JSON text; models Flask's `jsonify`
    serialization (keys in insertion order). -/
def jsonRender : JVal → String
  | .jnull => "null"
  | .jbool true => "true"
  | .jbool false => "false"
  | .jint n => toString n
  | .jstr s => "\"" ++ s ++ "\""
  | .jobj l => "\x7b" ++ jsonRenderFields l ++ "\x7d"

def jsonRenderFields : List (String × JVal) → String
  | [] => ""
  | [(k, v)] => "\"" ++ k ++ "\": " ++ jsonRender v
  | (k, v) :: rest => "\"" ++ k ++ "\": " ++ jsonRender v ++ ", " ++ jsonRenderFields rest
end

/-- `jsonifyText d` : the body text produced by `jsonify(d)` for a dict. -/
def jsonifyText (d : List (String × JVal)) : String := jsonRender (.jobj d)

/-! ## Constants and request data (src/app.py) -/

/-- `AUTH_URL` (app.py line 27). -/
def AUTH_URL : String := "https://www.tiktok.com/v2/auth/authorize/"

/-- `TOKEN_URL` (app.py line 28). -/
def TOKEN_URL : String := "https://open.tiktokapis.com/v2/oauth/token/"

/-- `CONTENT_INIT_URL` (app.py line 32). -/
def CONTENT_INIT_URL : String := "https://open.tiktokapis.com/v2/post/publish/video/init/"

/-- `INBOX_INIT_URL` (app.py line 34). -/
def INBOX_INIT_URL : String := "https://open.tiktokapis.com/v2/post/publish/inbox/video/init/"

/-- `MAX_FILE_SIZE = 287 * 1024 * 1024` (app.py line 39). -/
def MAX_FILE_SIZE : Nat := 287 * 1024 * 1024

/-- The Flask session: a string-keyed dict of JSON values. -/
def PyDict : Type := List (String × JVal)

/-- Keyword arguments of `upload_video_to_tiktok` other than the file and
    the `direct_post` flag. -/
structure UploadParams where
  title : String
  description : String
  privacy_level : String
  disable_duet : Bool
  disable_comment : Bool
  disable_stitch : Bool

/-- An HTTP response received from the remote platform, as seen through
    `requests`: status code, the parsed JSON body when `.json()` succeeds
    (`none` when it would raise), and the raw text. -/
structure ApiResponse where
  status : Nat
  json : Option (List (String × JVal))
  text : String

/-- The effect environment of one request: results of the file operations
    and of each outbound HTTP call.  `.error e` models the operation
    raising a Python exception whose `str()` is `e`. -/
structure Env where
  fileSize : Except String Nat
  directInit : Except String ApiResponse
  inboxInit : Except String ApiResponse
  fileRead : Except String Unit
  uploadPut : Except String ApiResponse

/-- One outbound network call, as recorded for the trace.  `statusFetch`
    is the status-poll call the spec describes; no code path in
    src/app.py ever issues one. -/
inductive NetCall where
  | tokenPost (url : String)
  | initPost (url : String) (body : JVal)
  | uploadPut (url : String) (headers : List (String × String))
  | statusFetch (publishId : String)

/-- `source_info` of the INIT body (app.py lines 197-202 / 206-212):
    declares the file's byte size verbatim, one single chunk. -/
def sourceInfo (videoSize : Nat) : JVal :=
  .jobj [("source", .jstr "FILE_UPLOAD"),
         ("video_size", .jint videoSize),
         ("chunk_size", .jint videoSize),
         ("total_chunk_count", .jint 1)]

/-- INIT body for the Direct Post endpoint (app.py lines 187-203).
    `title or "Uploaded via API"` defaults an empty title. -/
def initDataDirect (p : UploadParams) (videoSize : Nat) : JVal :=
  .jobj [("post_info", .jobj
            [("title", .jstr (if p.title = "" then "Uploaded via API" else p.title)),
             ("privacy_level", .jstr p.privacy_level),
             ("disable_duet", .jbool p.disable_duet),
             ("disable_comment", .jbool p.disable_comment),
             ("disable_stitch", .jbool p.disable_stitch),
             ("brand_content_toggle", .jbool false),
             ("brand_organic_toggle", .jbool false)]),
         ("source_info", sourceInfo videoSize)]

/-- INIT body for the Inbox endpoint (app.py lines 206-213). -/
def initDataInbox (videoSize : Nat) : JVal :=
  .jobj [("source_info", sourceInfo videoSize)]

/-- Headers of the binary upload PUT (app.py lines 302-306). -/
def upload_headers (videoSize : Nat) : List (String × String) :=
  [("Content-Type", "video/mp4"),
   ("Content-Length", toString videoSize),
   ("Content-Range", "bytes 0-" ++ toString ((videoSize : Int) - 1) ++ "/" ++ toString videoSize)]

/-- `{"error": msg}` result dict. -/
def mkError (msg : String) : PyDict := [("error", .jstr msg)]

/-- The outer `except Exception` handler's dict (app.py line 352). -/
def excDict (e : String) : PyDict := mkError ("Exception during upload: " ++ e)

/-- `f"Init failed (HTTP {status}): {text}"` (app.py line 253). -/
def initFailedDict (r : ApiResponse) : PyDict :=
  mkError ("Init failed (HTTP " ++ toString r.status ++ "): " ++ r.text)

/-- The unaudited-client error dict (app.py line 241). -/
def directPostErrorDict (msg : String) : PyDict :=
  mkError ("Direct Post Error: Your app needs to be audited by TikTok for public posting. Current restriction: "
           ++ msg ++ ". Try setting your TikTok account to private or use inbox flow.")

/-- The privacy-level error dict (app.py line 243). -/
def privacyErrorDict (privacy msg : String) : PyDict :=
  mkError ("Privacy Level Error: " ++ msg ++ ". The privacy level \x27" ++ privacy
           ++ "\x27 may not be available for your account.")

/-- `f"Upload failed (HTTP {status}): {text}"` (app.py line 321). -/
def uploadFailedDict (r : ApiResponse) : PyDict :=
  mkError ("Upload failed (HTTP " ++ toString r.status ++ "): " ++ r.text)

/-- Success dict of the direct-post branch (app.py lines 327-333). -/
def successDirectDict (pid : String) : PyDict :=
  [("success", .jbool true),
   ("publish_id", .jstr pid),
   ("message", .jstr "Video published directly to TikTok! It may take a few minutes to appear on your profile."),
   ("type", .jstr "direct_post"),
   ("note", .jstr "This was published directly to your TikTok profile.")]

/-- Success dict of the inbox branch (app.py lines 335-341). -/
def successInboxDict (pid : String) : PyDict :=
  [("success", .jbool true),
   ("publish_id", .jstr pid),
   ("message", .jstr "Video uploaded to your TikTok inbox! Check your TikTok app notifications to complete posting."),
   ("type", .jstr "inbox_flow"),
   ("note", .jstr "This went to your TikTok inbox for manual posting.")]

/-- Success dict of the unknown-prefix branch (app.py lines 343-348). -/
def successUnknownDict (pid : String) : PyDict :=
  [("success", .jbool true),
   ("publish_id", .jstr pid),
   ("message", .jstr "Video uploaded successfully! Check your TikTok app to see where it appeared."),
   ("type", .jstr "unknown")]

/-- `upload_response.status_code not in [200, 201, 202, 204]` negated
    (app.py line 320). -/
def putStatusAccepted (s : Nat) : Bool :=
  s == 200 || s == 201 || s == 202 || s == 204

/-! ## The INIT-failure analysis and the upload state machine (app.py 159-352) -/

/-- What the non-200 INIT branch decides (app.py lines 232-253): return a
    dict immediately, or fall back to the inbox flow. -/
inductive InitFailAction where
  | ret (d : PyDict)
  | fallback

/-- Analysis of a parsed non-200 INIT error body (app.py lines 234-249).
    `error_msg` defaults to the raw text, `error_code` to "unknown"; a
    non-string value hit by the `in` substring test raises inside the
    inner `try`, whose bare `except: pass` drops to the generic
    `Init failed` return. -/
def initFailAnalyze (direct : Bool) (privacy : String) (r : ApiResponse)
    (errObj : List (String × JVal)) : InitFailAction :=
  let msgVal := (alookup errObj "message").getD (.jstr r.text)
  match alookup errObj "code" with
  | some (.jstr c) =>
    if strContains c "unaudited_client" then .ret (directPostErrorDict (pyStrJ msgVal))
    else
      match msgVal with
      | .jstr m =>
        if strContains m "private_accounts" then .ret (directPostErrorDict m)
        else if strContains c "privacy_level_option_mismatch" then .ret (privacyErrorDict privacy m)
        else if direct then .fallback
        else .ret (initFailedDict r)
      | _ => .ret (initFailedDict r)
  | some _ => .ret (initFailedDict r)
  | none =>
    -- code defaults to the string "unknown": neither special substring occurs
    match msgVal with
    | .jstr m =>
      if strContains m "private_accounts" then .ret (directPostErrorDict m)
      else if direct then .fallback
      else .ret (initFailedDict r)
    | _ => .ret (initFailedDict r)

/-- The whole non-200 INIT branch (app.py lines 232-253): failure to parse
    the body as JSON, or a non-dict `error` member, ends in the generic
    `Init failed` dict. -/
def initFailAction (direct : Bool) (privacy : String) (r : ApiResponse) : InitFailAction :=
  match r.json with
  | none => .ret (initFailedDict r)
  | some j =>
    match alookup j "error" with
    | none => initFailAnalyze direct privacy r []
    | some (.jobj errObj) => initFailAnalyze direct privacy r errObj
    | some _ => .ret (initFailedDict r)

/-- Step 2, the binary PUT (app.py lines 297-348): seek/read the file,
    PUT the whole payload once to `upload_url`, then classify the result
    by the `publish_id` prefix.  `n` is the byte size measured earlier. -/
def putStage (env : Env) (n : Nat) (pid : String) (uOpt : Option String) :
    PyDict × List NetCall :=
  match env.fileRead with
  | .error e => (excDict e, [])
  | .ok _ =>
    match uOpt with
    | none => (excDict "InvalidURL: upload_url is not a string", [])
    | some u =>
      match env.uploadPut with
      | .error e => (excDict e, [NetCall.uploadPut u (upload_headers n)])
      | .ok ur =>
        if putStatusAccepted ur.status then
          (if strStartsWith pid "v_pub_" then successDirectDict pid
           else if strStartsWith pid "v_inbox_" then successInboxDict pid
           else successUnknownDict pid, [NetCall.uploadPut u (upload_headers n)])
        else
          (uploadFailedDict ur, [NetCall.uploadPut u (upload_headers n)])

/-- `error_info.get("code") != "ok"` negated (app.py line 262). -/
def errCodeIsOk (errObj : List (String × JVal)) : Bool :=
  match alookup errObj "code" with
  | some (.jstr s) => s == "ok"
  | _ => false

/-- The 200-with-API-error branch (app.py lines 262-277): specific
    errors return; otherwise direct post falls back to the inbox flow
    (`fb`), and the inbox flow returns `Init API error`.  A non-string
    `code` raises at the `in` test, caught only by the outer handler. -/
def apiErrorStage (direct : Bool) (errObj : List (String × JVal))
    (fb : PyDict × List NetCall) : PyDict × List NetCall :=
  let msgVal := (alookup errObj "message").getD (.jstr "Unknown error")
  match (alookup errObj "code").getD (.jstr "unknown") with
  | .jstr c =>
    if strContains c "unaudited_client" then
      (mkError ("Direct Post requires app audit: " ++ pyStrJ msgVal
                ++ ". Your app needs TikTok approval for public posting."), [])
    else if strContains c "privacy_level_option_mismatch" then
      (mkError ("Privacy setting error: " ++ pyStrJ msgVal
                ++ ". Try a different privacy level."), [])
    else if direct then fb
    else (mkError ("Init API error: " ++ pyReprJ (.jobj errObj)), [])
  | _ => (excDict "TypeError: argument of type is not iterable", [])

/-- Extraction of `data`, `publish_id`, `upload_url` (app.py lines
    279-295) followed by the PUT stage.  A non-dict `data`, or a truthy
    non-string `publish_id` hit by `.startswith`, raises to the outer
    handler. -/
def dataStage (env : Env) (n : Nat) (initResult : List (String × JVal)) :
    PyDict × List NetCall :=
  match alookup initResult "data" with
  | none => (mkError ("Init response missing data: " ++ pyReprJ (.jobj initResult)), [])
  | some (.jobj dataObj) =>
    let pidVal := (alookup dataObj "publish_id").getD .jnull
    let urlVal := (alookup dataObj "upload_url").getD .jnull
    if pyTruthyJ pidVal && pyTruthyJ urlVal then
      match pidVal with
      | .jstr pid =>
        putStage env n pid (match urlVal with | .jstr u => some u | _ => none)
      | _ => (excDict "AttributeError: startswith", [])
    else
      (mkError ("Init response missing publish_id or upload_url: " ++ pyReprJ (.jobj initResult)), [])
  | some _ => (excDict "AttributeError: get", [])

/-- The HTTP-200 INIT continuation (app.py lines 255-348): parse the body,
    check the embedded API error code, then extract data and upload. -/
def afterInitOk (direct : Bool) (env : Env) (n : Nat)
    (fb : PyDict × List NetCall) (r : ApiResponse) : PyDict × List NetCall :=
  match r.json with
  | none => (mkError ("Init response not valid JSON: " ++ r.text), [])
  | some initResult =>
    match alookup initResult "error" with
    | some (.jobj errObj) =>
      if errCodeIsOk errObj then dataStage env n initResult
      else apiErrorStage direct errObj fb
    | none => apiErrorStage direct [] fb
    | some _ => (excDict "AttributeError: get", [])

/-- One pass of `upload_video_to_tiktok` with a fixed `direct_post` flag
    (app.py lines 159-352); `fb` is the result of the recursive fallback
    call with `direct_post=False`, consulted only where the source
    recurses.  Returns the result dict and the network calls made. -/
def uploadOnce (direct : Bool) (p : UploadParams) (sess : PyDict) (env : Env)
    (fb : PyDict × List NetCall) : PyDict × List NetCall :=
  if pyTruthyJ ((alookup sess "access_token").getD .jnull) then
    match env.fileSize with
    | .error e => (excDict e, [])
    | .ok n =>
      let initCall := NetCall.initPost (if direct then CONTENT_INIT_URL else INBOX_INIT_URL)
                        (if direct then initDataDirect p n else initDataInbox n)
      match (if direct then env.directInit else env.inboxInit) with
      | .error e => (excDict e, [initCall])
      | .ok r =>
        if r.status = 200 then
          let res := afterInitOk direct env n fb r
          (res.1, initCall :: res.2)
        else
          match initFailAction direct p.privacy_level r with
          | .ret d => (d, [initCall])
          | .fallback => (fb.1, initCall :: fb.2)
  else
    ([("error", .jstr "Not authenticated")], [])

/-- `upload_video_to_tiktok` (app.py lines 159-352): the direct-post run
    may fall back once to the inbox run; the inbox run never recurses. -/
def upload_video_to_tiktok (p : UploadParams) (direct : Bool) (sess : PyDict)
    (env : Env) : PyDict × List NetCall :=
  if direct then uploadOnce true p sess env (uploadOnce false p sess env ([], []))
  else uploadOnce false p sess env ([], [])

/-! ## OAuth callback (app.py lines 405-453) and routes -/

/-- Query parameters of `GET /callback`. -/
structure CallbackArgs where
  error : Option String
  code : Option String
  state : Option String

/-- An HTTP response produced by a Flask handler.  A redirect is status
    302 with the location as body. -/
structure HttpResult where
  status : Nat
  contentType : String
  body : String

/-- `new_state` (app.py lines 145-148): store a fresh state string in the
    session under `oauth_state`, overwriting any previous one. -/
def new_state (s : String) (sess : PyDict) : PyDict :=
  dictSet sess "oauth_state" (.jstr s)

/-- The state check of the callback (app.py lines 419-421) passing:
    `saved_state` truthy and equal to the `state` query parameter. -/
def stateOkB (sess : PyDict) (st : Option String) : Bool :=
  match alookup sess "oauth_state" with
  | none => false
  | some v => pyTruthyJ v && jvalEqOptStr v st

/-- `token_json` (app.py lines 438-441): the parsed body, or
    `{"raw": r.text}` when `.json()` raises. -/
def tokenJsonOf (r : ApiResponse) : List (String × JVal) :=
  r.json.getD [("raw", .jstr r.text)]

/-- The `/callback` handler (app.py lines 405-453).  `resp` is the token
    endpoint's response, consulted only if the handler reaches the
    exchange; returns the response, the session afterwards, and the
    outbound calls made. -/
def callback (args : CallbackArgs) (sess : PyDict) (resp : ApiResponse) :
    HttpResult × PyDict × List NetCall :=
  match args.error with
  | some e => (⟨400, "text/html", "❌ TikTok error: " ++ e⟩, sess, [])
  | none =>
    let codeOk := match args.code with | none => false | some c => !(c == "")
    if codeOk then
      if stateOkB sess args.state then
        let tj := tokenJsonOf resp
        if resp.status == 200 && (alookup tj "access_token").isSome then
          let sess1 := dictSet sess "access_token" ((alookup tj "access_token").getD .jnull)
          let sess2 := dictSet sess1 "open_id" ((alookup tj "open_id").getD .jnull)
          (⟨302, "text/html", "/upload"⟩, sess2, [NetCall.tokenPost TOKEN_URL])
        else
          (⟨400, "text/html", "❌ Token response missing access_token: " ++ jsonifyText tj⟩,
           sess, [NetCall.tokenPost TOKEN_URL])
      else (⟨400, "text/html", "❌ State mismatch. Start login again."⟩, sess, [])
    else (⟨400, "text/html", "❌ Missing ?code from TikTok."⟩, sess, [])

/-- The callback passes all pre-exchange checks (error absent, code
    present and non-empty, state matching). -/
def callbackReachesExchange (args : CallbackArgs) (sess : PyDict) : Bool :=
  (match args.error with | some _ => false | none => true)
  && (match args.code with | none => false | some c => !(c == ""))
  && stateOkB sess args.state

/-- ASCII lowercase of one character. -/
def lowerChar (c : Char) : Char :=
  if 65 ≤ c.toNat && c.toNat ≤ 90 then Char.ofNat (c.toNat + 32) else c

/-- Python `s.lower()` (ASCII range, as needed for filenames). -/
def pyLower (s : String) : String := ⟨s.toList.map lowerChar⟩

/-- Python `s.strip()`: drop leading and trailing whitespace. -/
def pyStrip (s : String) : String :=
  let ws := fun c : Char => c == ' ' || c == '\t' || c == '\n' || c == '\r'
  ⟨((s.toList.dropWhile ws).reverse.dropWhile ws).reverse⟩

/-- Form fields of `POST /upload` (app.py lines 466-473), after Flask's
    `.get` defaults; checkbox fields are already their truthiness. -/
structure UploadForm where
  videoFilename : Option String
  title : String
  description : String
  privacy_level : String
  disable_duet : Bool
  disable_comment : Bool
  disable_stitch : Bool
  direct_post : Bool

/-- The keyword arguments the route passes to `upload_video_to_tiktok`
    (app.py lines 497-506): title and description stripped. -/
def formParams (form : UploadForm) : UploadParams :=
  { title := pyStrip form.title, description := pyStrip form.description,
    privacy_level := form.privacy_level,
    disable_duet := form.disable_duet, disable_comment := form.disable_comment,
    disable_stitch := form.disable_stitch }

/-- `f"""..."""` success page of the direct-post branch (app.py 512-520). -/
def directPostHtml (pid : String) : String :=
  "\n        ✅ Video published directly to TikTok!<br>\n        Publish ID: " ++ pid
  ++ "<br>\n        <br>\n        <strong>Your video has been posted to your TikTok profile!</strong><br>\n        It may take a few minutes to appear on your profile.<br>\n        <br>\n        <a href=\"/upload\">Upload Another Video</a> | <a href=\"/\">Home</a>\n        "

/-- `f"""..."""` success page of the inbox branch (app.py 522-534). -/
def inboxHtml (pid : String) : String :=
  "\n        ✅ Video uploaded successfully to your TikTok inbox!<br>\n        Publish ID: " ++ pid
  ++ "<br>\n        <br>\n        <strong>Next steps:</strong><br>\n        1. Open your TikTok app<br>\n        2. Check your notifications/inbox<br>\n        3. Find your uploaded video<br>\n        4. Add captions, hashtags, and privacy settings<br>\n        5. Post the video<br>\n        <br>\n        <a href=\"/upload\">Upload Another Video</a> | <a href=\"/\">Home</a>\n        "

/-- The file-size guard of the route (app.py line 491). -/
def fileTooLarge (n : Nat) : Bool := n > MAX_FILE_SIZE

/-- `result.get("type") == "direct_post"` (app.py line 511). -/
def resultTypeIsDirect (r : PyDict) : Bool :=
  match alookup r "type" with
  | some (.jstr s) => s == "direct_post"
  | _ => false

/-- The `POST /upload` handler (app.py lines 456-534): authentication and
    form validation, the size guard, then the upload call; an uncaught
    exception in the route's own seek/tell becomes a Flask 500. -/
def uploadRoutePost (form : UploadForm) (sess : PyDict) (env : Env) :
    HttpResult × List NetCall :=
  if pyTruthyJ ((alookup sess "access_token").getD .jnull) then
    match form.videoFilename with
    | none => (⟨400, "text/html", "❌ No video file selected"⟩, [])
    | some fname =>
      if fname = "" then (⟨400, "text/html", "❌ No video file selected"⟩, [])
      else if form.direct_post && pyStrip form.title == "" then
        (⟨400, "text/html", "❌ Title is required for direct posting"⟩, [])
      else if !(strEndsWith (pyLower fname) ".mp4") then
        (⟨400, "text/html", "❌ Only MP4 files are supported"⟩, [])
      else
        match env.fileSize with
        | .error _ => (⟨500, "text/html", "Internal Server Error"⟩, [])
        | .ok n =>
          if fileTooLarge n then
            (⟨400, "text/html",
              "❌ File too large. Maximum size is " ++ toString (MAX_FILE_SIZE / (1024 * 1024)) ++ "MB"⟩, [])
          else
            let r := upload_video_to_tiktok (formParams form) form.direct_post sess env
            match alookup r.1 "error" with
            | some ev =>
              if pyTruthyJ ev then
                (⟨400, "text/html", "❌ Upload failed: " ++ pyStrJ ev⟩, r.2)
              else if resultTypeIsDirect r.1 then
                (⟨200, "text/html", directPostHtml (pyStrJ ((alookup r.1 "publish_id").getD (.jstr "N/A")))⟩, r.2)
              else
                (⟨200, "text/html", inboxHtml (pyStrJ ((alookup r.1 "publish_id").getD (.jstr "N/A")))⟩, r.2)
            | none =>
              if resultTypeIsDirect r.1 then
                (⟨200, "text/html", directPostHtml (pyStrJ ((alookup r.1 "publish_id").getD (.jstr "N/A")))⟩, r.2)
              else
                (⟨200, "text/html", inboxHtml (pyStrJ ((alookup r.1 "publish_id").getD (.jstr "N/A")))⟩, r.2)
  else
    (⟨401, "text/html", "❌ Not authenticated. Please login first."⟩, [])

/-! ## Verification file server (src/verify.py) -/

/-- The directory `verify.py` serves from: whether it exists, and the
    files it holds (name ↦ contents). -/
structure VerifyFS where
  dirExists : Bool
  files : List (String × String)

/-- `serve_callback_file` (verify.py lines 20-25): reject any name not
    ending in `.txt`, else serve the file as `text/plain`.
    `send_from_directory` (Flask) aborts with 404 when the directory or
    the file is absent. -/
def serve_callback_file (fs : VerifyFS) (filename : String) : HttpResult :=
  if strEndsWith filename ".txt" then
    if fs.dirExists then
      match alookup fs.files filename with
      | some contents => ⟨200, "text/plain", contents⟩
      | none => ⟨404, "text/html", "Not Found"⟩
    else ⟨404, "text/html", "Not Found"⟩
  else ⟨404, "text/html", "Not Found"⟩

/-! ## Scenario constants used by concrete theorems -/

/-- Nested JSON field access. -/
def jGet (v : JVal) (k : String) : Option JVal :=
  match v with
  | .jobj l => alookup l k
  | _ => none

def isInitCall : NetCall → Bool
  | .initPost _ _ => true
  | _ => false

def isPutCall : NetCall → Bool
  | .uploadPut _ _ => true
  | _ => false

/-- Number of INIT POSTs in a trace. -/
def countInit (tr : List NetCall) : Nat := tr.countP isInitCall

/-- Number of binary-upload PUTs in a trace. -/
def countPut (tr : List NetCall) : Nat := tr.countP isPutCall

/-- The spec-side reading of the session's stored oauth state. -/
def storedState (sess : PyDict) : Option String :=
  match alookup sess "oauth_state" with
  | some (.jstr s) => some s
  | _ => none

/-- A result dict of `upload_video_to_tiktok` is well-formed: an `error`
    entry, or `success: True` together with a string `publish_id`. -/
def goodResult (d : PyDict) : Prop :=
  (alookup d "error").isSome
  ∨ (alookup d "success" = some (.jbool true) ∧ ∃ pid, alookup d "publish_id" = some (.jstr pid))

/-- Facts holding of a fallback-free pass of the upload client after a
    successful INIT: a well-formed result, no further INIT, at most one
    PUT carrying exactly the measured-size headers, and a failed PUT
    forcing the `Upload failed` dict. -/
def StageOK (n : Nat) (env : Env) (out : PyDict × List NetCall) : Prop :=
  goodResult out.1
  ∧ countInit out.2 = 0
  ∧ countPut out.2 ≤ 1
  ∧ (∀ u h, NetCall.uploadPut u h ∈ out.2 → h = upload_headers n)
  ∧ (∀ ur, env.uploadPut = .ok ur → putStatusAccepted ur.status = false →
       (∃ u h, NetCall.uploadPut u h ∈ out.2) → out.1 = uploadFailedDict ur)

/-- Facts holding of a whole fallback-free run: well-formed result, at
    most one INIT and one PUT, all calls sized from the measured file
    size, and a failed PUT forcing the `Upload failed` dict. -/
def RunOK (p : UploadParams) (env : Env) (out : PyDict × List NetCall) : Prop :=
  goodResult out.1
  ∧ countInit out.2 ≤ 1
  ∧ countPut out.2 ≤ 1
  ∧ (∀ u h, NetCall.uploadPut u h ∈ out.2 → ∃ m, env.fileSize = .ok m ∧ h = upload_headers m)
  ∧ (∀ u b, NetCall.initPost u b ∈ out.2 →
       ∃ m, env.fileSize = .ok m ∧ (b = initDataDirect p m ∨ b = initDataInbox m))
  ∧ (∀ ur, env.uploadPut = .ok ur → putStatusAccepted ur.status = false →
       (∃ u h, NetCall.uploadPut u h ∈ out.2) → out.1 = uploadFailedDict ur)

/-- Session of an authenticated user, for concrete runs. -/
def sessionW : PyDict := [("access_token", .jstr "tokW")]

/-- Generic upload parameters for concrete runs. -/
def paramsW : UploadParams :=
  { title := "t", description := "", privacy_level := "PUBLIC_TO_EVERYONE",
    disable_duet := false, disable_comment := false, disable_stitch := false }

/-- A 200 INIT response whose data yields an inbox publish id. -/
def respInitOkW : ApiResponse :=
  ⟨200, some [("error", .jobj [("code", .jstr "ok")]),
              ("data", .jobj [("publish_id", .jstr "v_inbox_1"),
                              ("upload_url", .jstr "https://up.example/a")])], "ok"⟩

/-- A rejected binary PUT. -/
def respPutFailW : ApiResponse := ⟨403, none, "Forbidden body"⟩

/-- Environment: INIT succeeds, the PUT is rejected with 403. -/
def envPutFailW : Env := ⟨.ok 10, .ok respInitOkW, .ok respInitOkW, .ok (), .ok respPutFailW⟩

/-- Direct-post INIT 4xx with an ordinary error payload. -/
def rC3direct : ApiResponse :=
  ⟨403, some [("error", .jobj [("code", .jstr "access_denied"), ("message", .jstr "nope")])],
   "direct raw body"⟩

/-- Inbox INIT 4xx whose error code matches the special
    privacy_level_option_mismatch pattern. -/
def rC3inbox : ApiResponse :=
  ⟨403, some [("error", .jobj [("code", .jstr "privacy_level_option_mismatch"),
                               ("message", .jstr "m")])],
   "RAW_BODY_XYZ"⟩

/-- Environment where both INIT shapes come back 4xx, the second with a
    specially-recognized error code. -/
def envC3 : Env := ⟨.ok 7, .ok rC3direct, .ok rC3inbox, .ok (), .ok ⟨200, none, ""⟩⟩

/-- Direct-post INIT 4xx with a generic error payload. -/
def rC3wa : ApiResponse :=
  ⟨400, some [("error", .jobj [("code", .jstr "err_one"), ("message", .jstr "mm")])],
   "first raw"⟩

/-- Inbox INIT 4xx with a generic error payload. -/
def rC3wb : ApiResponse :=
  ⟨404, some [("error", .jobj [("code", .jstr "err_two"), ("message", .jstr "nn")])],
   "LAST_RAW"⟩

/-- Environment where both INIT shapes come back 4xx with generic errors. -/
def envC3w : Env := ⟨.ok 9, .ok rC3wa, .ok rC3wb, .ok (), .ok ⟨200, none, ""⟩⟩

/-- Callback query with a matching state. -/
def argsC4 : CallbackArgs := ⟨none, some "authcode", some "st"⟩

/-- Session holding the issued state. -/
def sessC4 : PyDict := [("oauth_state", .jstr "st")]

/-- Successful token-endpoint response carrying an expires_in. -/
def respC4 : ApiResponse :=
  ⟨200, some [("access_token", .jstr "tok"), ("open_id", .jstr "me"),
              ("expires_in", .jint 3600)], "raw"⟩

/-- Failing token-endpoint response. -/
def respC6 : ApiResponse := ⟨500, none, "server error"⟩

/-- Upload form of the 5 MB example scenario. -/
def formC5 : UploadForm :=
  { videoFilename := some "clip.mp4", title := "hello", description := "",
    privacy_level := "SELF_ONLY", disable_duet := false, disable_comment := false,
    disable_stitch := false, direct_post := true }

/-- The parameters the route passes for `formC5`. -/
def paramsC5 : UploadParams :=
  { title := "hello", description := "", privacy_level := "SELF_ONLY",
    disable_duet := false, disable_comment := false, disable_stitch := false }

/-- Session of the 5 MB example scenario. -/
def sessC5 : PyDict := [("access_token", .jstr "act")]

/-- Successful direct-post INIT response of the example scenario. -/
def respInitC5 : ApiResponse :=
  ⟨200, some [("error", .jobj [("code", .jstr "ok")]),
              ("data", .jobj [("publish_id", .jstr "v_pub_777"),
                              ("upload_url", .jstr "https://upload.tiktok.example/u1")])],
   "okbody"⟩

/-- Environment of the 5 MB example scenario: INIT and PUT both succeed. -/
def envC5 : Env :=
  ⟨.ok 5242880, .ok respInitC5, .ok ⟨500, none, "unused"⟩, .ok (), .ok ⟨200, none, "PUT OK"⟩⟩

/-- Upload form for the size-guard witness. -/
def formC8 : UploadForm :=
  { videoFilename := some "clip.mp4", title := "t", description := "",
    privacy_level := "PUBLIC_TO_EVERYONE", disable_duet := false, disable_comment := false,
    disable_stitch := false, direct_post := false }

/-- Environment with an oversized file. -/
def envC8 : Env :=
  ⟨.ok (MAX_FILE_SIZE + 1), .ok respInitOkW, .ok respInitOkW, .ok (), .ok respPutFailW⟩

/-- Verification directory with one file, for concrete runs. -/
def fsW : VerifyFS := ⟨true, [("verify.txt", "tiktok-site-verification=abc")]⟩

lemma goodResult_mkError (msg : String) : goodResult (mkError msg) := by
  left; simp [mkError, alookup]

lemma goodResult_excDict (e : String) : goodResult (excDict e) :=
  goodResult_mkError _

lemma goodResult_successDirect (pid : String) : goodResult (successDirectDict pid) := by
  right; exact ⟨by simp [successDirectDict, alookup], pid, by simp [successDirectDict, alookup]⟩

lemma goodResult_successInbox (pid : String) : goodResult (successInboxDict pid) := by
  right; exact ⟨by simp [successInboxDict, alookup], pid, by simp [successInboxDict, alookup]⟩

lemma goodResult_successUnknown (pid : String) : goodResult (successUnknownDict pid) := by
  right; exact ⟨by simp [successUnknownDict, alookup], pid, by simp [successUnknownDict, alookup]⟩

@[simp] lemma isInitCall_tokenPost (u : String) : isInitCall (.tokenPost u) = false := rfl
@[simp] lemma isInitCall_initPost (u : String) (b : JVal) : isInitCall (.initPost u b) = true := rfl
@[simp] lemma isInitCall_uploadPut (u : String) (h : List (String × String)) : isInitCall (.uploadPut u h) = false := rfl
@[simp] lemma isInitCall_statusFetch (p : String) : isInitCall (.statusFetch p) = false := rfl
@[simp] lemma isPutCall_tokenPost (u : String) : isPutCall (.tokenPost u) = false := rfl
@[simp] lemma isPutCall_initPost (u : String) (b : JVal) : isPutCall (.initPost u b) = false := rfl
@[simp] lemma isPutCall_uploadPut (u : String) (h : List (String × String)) : isPutCall (.uploadPut u h) = true := rfl
@[simp] lemma isPutCall_statusFetch (p : String) : isPutCall (.statusFetch p) = false := rfl

@[simp] lemma countInit_nil : countInit [] = 0 := rfl
@[simp] lemma countPut_nil : countPut [] = 0 := rfl
@[simp] lemma countInit_cons (c : NetCall) (tr : List NetCall) :
    countInit (c :: tr) = countInit tr + (if isInitCall c then 1 else 0) := by
  simp [countInit, List.countP_cons]
@[simp] lemma countPut_cons (c : NetCall) (tr : List NetCall) :
    countPut (c :: tr) = countPut tr + (if isPutCall c then 1 else 0) := by
  simp [countPut, List.countP_cons]

lemma putStage_ok (env : Env) (n : Nat) (pid : String) (uOpt : Option String) :
    StageOK n env (putStage env n pid uOpt) := by
  unfold StageOK putStage
  rcases hfr : env.fileRead with e | u0 <;> rcases uOpt with _ | u
  · exact ⟨goodResult_excDict e, by simp, by simp, by simp, by simp⟩
  · exact ⟨goodResult_excDict e, by simp, by simp, by simp, by simp⟩
  · exact ⟨goodResult_excDict _, by simp, by simp, by simp, by simp⟩
  · rcases hput : env.uploadPut with e2 | ur
    · refine ⟨goodResult_excDict e2, by simp, by simp, ?_, ?_⟩
      · intro u' h' hm; simp at hm; exact hm.2
      · intro ur' hur; cases hur
    · by_cases hacc : putStatusAccepted ur.status
      · simp only [hacc, if_true]
        refine ⟨?_, by simp, by simp, ?_, ?_⟩
        · by_cases h1 : strStartsWith pid "v_pub_"
          · simpa [h1] using goodResult_successDirect pid
          · by_cases h2 : strStartsWith pid "v_inbox_"
            · simpa [h1, h2] using goodResult_successInbox pid
            · simpa [h1, h2] using goodResult_successUnknown pid
        · intro u' h' hm; simp at hm; exact hm.2
        · intro ur' hur hacc'
          cases hur; rw [hacc] at hacc'; cases hacc'
      · rw [Bool.not_eq_true] at hacc
        simp only [hacc, Bool.false_eq_true, if_false]
        refine ⟨goodResult_mkError _, by simp, by simp, ?_, ?_⟩
        · intro u' h' hm; simp at hm; exact hm.2
        · intro ur' hur _ _
          cases hur; rfl

lemma goodResult_initFailedDict (r : ApiResponse) : goodResult (initFailedDict r) :=
  goodResult_mkError _

lemma goodResult_directPostError (m : String) : goodResult (directPostErrorDict m) :=
  goodResult_mkError _

lemma goodResult_privacyError (p m : String) : goodResult (privacyErrorDict p m) :=
  goodResult_mkError _

lemma goodResult_uploadFailedDict (r : ApiResponse) : goodResult (uploadFailedDict r) :=
  goodResult_mkError _

/-- A result-trace pair whose trace is empty and whose dict is
    well-formed satisfies `StageOK`. -/
lemma StageOK_of_empty (n : Nat) (env : Env) (d : PyDict) (hd : goodResult d) :
    StageOK n env (d, []) :=
  ⟨hd, by simp, by simp, by simp, by simp⟩

lemma dataStage_ok (env : Env) (n : Nat) (initResult : List (String × JVal)) :
    StageOK n env (dataStage env n initResult) := by
  rcases hd : alookup initResult "data" with _ | v
  · simp only [dataStage, hd]
    exact StageOK_of_empty _ _ _ (goodResult_mkError _)
  · rcases v with _ | s | m | b | dataObj
    · simp only [dataStage, hd]; exact StageOK_of_empty _ _ _ (goodResult_excDict _)
    · simp only [dataStage, hd]; exact StageOK_of_empty _ _ _ (goodResult_excDict _)
    · simp only [dataStage, hd]; exact StageOK_of_empty _ _ _ (goodResult_excDict _)
    · simp only [dataStage, hd]; exact StageOK_of_empty _ _ _ (goodResult_excDict _)
    · by_cases ht : pyTruthyJ ((alookup dataObj "publish_id").getD .jnull)
             && pyTruthyJ ((alookup dataObj "upload_url").getD .jnull)
      · simp only [dataStage, hd, ht, if_true]
        rcases hpid : (alookup dataObj "publish_id").getD .jnull with _ | pid | m | b | o
        · simp only [hpid]; exact StageOK_of_empty _ _ _ (goodResult_excDict _)
        · simp only [hpid]; exact putStage_ok env n pid _
        · simp only [hpid]; exact StageOK_of_empty _ _ _ (goodResult_excDict _)
        · simp only [hpid]; exact StageOK_of_empty _ _ _ (goodResult_excDict _)
        · simp only [hpid]; exact StageOK_of_empty _ _ _ (goodResult_excDict _)
      · rw [Bool.not_eq_true] at ht
        simp only [dataStage, hd, ht, Bool.false_eq_true, if_false]
        exact StageOK_of_empty _ _ _ (goodResult_mkError _)

lemma apiErrorStage_cases (direct : Bool) (errObj : List (String × JVal))
    (fb : PyDict × List NetCall) :
    (apiErrorStage direct errObj fb = fb ∧ direct = true)
    ∨ (goodResult (apiErrorStage direct errObj fb).1 ∧ (apiErrorStage direct errObj fb).2 = []) := by
  rcases hc : (alookup errObj "code").getD (.jstr "unknown") with _ | c | m | b | o
  · simp only [apiErrorStage, hc]; exact Or.inr ⟨goodResult_excDict _, trivial⟩
  · by_cases h1 : strContains c "unaudited_client"
    · simp only [apiErrorStage, hc, h1, if_true]
      exact Or.inr ⟨goodResult_mkError _, trivial⟩
    · rw [Bool.not_eq_true] at h1
      by_cases h2 : strContains c "privacy_level_option_mismatch"
      · simp only [apiErrorStage, hc, h1, h2, Bool.false_eq_true, if_false, if_true]
        exact Or.inr ⟨goodResult_mkError _, trivial⟩
      · rw [Bool.not_eq_true] at h2
        rcases hdir : direct
        · simp only [apiErrorStage, hc, h1, h2, Bool.false_eq_true, if_false]
          exact Or.inr ⟨goodResult_mkError _, trivial⟩
        · simp only [apiErrorStage, hc, h1, h2, Bool.false_eq_true, if_false, if_true]
          exact Or.inl ⟨trivial, trivial⟩
  · simp only [apiErrorStage, hc]; exact Or.inr ⟨goodResult_excDict _, trivial⟩
  · simp only [apiErrorStage, hc]; exact Or.inr ⟨goodResult_excDict _, trivial⟩
  · simp only [apiErrorStage, hc]; exact Or.inr ⟨goodResult_excDict _, trivial⟩

lemma afterInitOk_cases (direct : Bool) (env : Env) (n : Nat)
    (fb : PyDict × List NetCall) (r : ApiResponse) :
    (afterInitOk direct env n fb r = fb ∧ direct = true)
    ∨ StageOK n env (afterInitOk direct env n fb r) := by
  rcases hj : r.json with _ | initResult
  · simp only [afterInitOk, hj]
    exact Or.inr (StageOK_of_empty _ _ _ (goodResult_mkError _))
  · rcases he : alookup initResult "error" with _ | v
    · simp only [afterInitOk, hj, he]
      rcases apiErrorStage_cases direct [] fb with ⟨heq, hdir⟩ | ⟨hg, ht⟩
      · exact Or.inl ⟨heq, hdir⟩
      · refine Or.inr ⟨hg, ?_, ?_, ?_, ?_⟩ <;> rw [ht] <;> simp
    · rcases v with _ | s | m | b | errObj
      · simp only [afterInitOk, hj, he]
        exact Or.inr (StageOK_of_empty _ _ _ (goodResult_excDict _))
      · simp only [afterInitOk, hj, he]
        exact Or.inr (StageOK_of_empty _ _ _ (goodResult_excDict _))
      · simp only [afterInitOk, hj, he]
        exact Or.inr (StageOK_of_empty _ _ _ (goodResult_excDict _))
      · simp only [afterInitOk, hj, he]
        exact Or.inr (StageOK_of_empty _ _ _ (goodResult_excDict _))
      · by_cases hok : errCodeIsOk errObj
        · simp only [afterInitOk, hj, he, hok, if_true]
          exact Or.inr (dataStage_ok env n initResult)
        · rw [Bool.not_eq_true] at hok
          simp only [afterInitOk, hj, he, hok, Bool.false_eq_true, if_false]
          rcases apiErrorStage_cases direct errObj fb with ⟨heq, hdir⟩ | ⟨hg, ht⟩
          · exact Or.inl ⟨heq, hdir⟩
          · refine Or.inr ⟨hg, ?_, ?_, ?_, ?_⟩ <;> rw [ht] <;> simp

lemma initFailAnalyze_cases (direct : Bool) (privacy : String) (r : ApiResponse)
    (errObj : List (String × JVal)) :
    (initFailAnalyze direct privacy r errObj = .fallback ∧ direct = true)
    ∨ ∃ d, initFailAnalyze direct privacy r errObj = .ret d ∧ goodResult d := by
  rcases hc : alookup errObj "code" with _ | v
  · rcases hm : (alookup errObj "message").getD (.jstr r.text) with _ | m | k | b | o
    · simp only [initFailAnalyze, hc, hm]
      exact Or.inr ⟨_, rfl, goodResult_initFailedDict r⟩
    · by_cases h1 : strContains m "private_accounts"
      · simp only [initFailAnalyze, hc, hm, h1, if_true]
        exact Or.inr ⟨_, rfl, goodResult_directPostError m⟩
      · rw [Bool.not_eq_true] at h1
        rcases hdir : direct
        · simp only [initFailAnalyze, hc, hm, h1, Bool.false_eq_true, if_false]
          exact Or.inr ⟨_, rfl, goodResult_initFailedDict r⟩
        · simp only [initFailAnalyze, hc, hm, h1, Bool.false_eq_true, if_false, if_true]
          exact Or.inl ⟨trivial, trivial⟩
    · simp only [initFailAnalyze, hc, hm]
      exact Or.inr ⟨_, rfl, goodResult_initFailedDict r⟩
    · simp only [initFailAnalyze, hc, hm]
      exact Or.inr ⟨_, rfl, goodResult_initFailedDict r⟩
    · simp only [initFailAnalyze, hc, hm]
      exact Or.inr ⟨_, rfl, goodResult_initFailedDict r⟩
  · rcases v with _ | c | k | b | o
    · simp only [initFailAnalyze, hc]
      exact Or.inr ⟨_, rfl, goodResult_initFailedDict r⟩
    · by_cases h0 : strContains c "unaudited_client"
      · simp only [initFailAnalyze, hc, h0, if_true]
        exact Or.inr ⟨_, rfl, goodResult_directPostError _⟩
      · rw [Bool.not_eq_true] at h0
        rcases hm : (alookup errObj "message").getD (.jstr r.text) with _ | m | k | b | o
        · simp only [initFailAnalyze, hc, hm, h0, Bool.false_eq_true, if_false]
          exact Or.inr ⟨_, rfl, goodResult_initFailedDict r⟩
        · by_cases h1 : strContains m "private_accounts"
          · simp only [initFailAnalyze, hc, hm, h0, h1, Bool.false_eq_true, if_false, if_true]
            exact Or.inr ⟨_, rfl, goodResult_directPostError m⟩
          · rw [Bool.not_eq_true] at h1
            by_cases h2 : strContains c "privacy_level_option_mismatch"
            · simp only [initFailAnalyze, hc, hm, h0, h1, h2, Bool.false_eq_true, if_false, if_true]
              exact Or.inr ⟨_, rfl, goodResult_privacyError privacy m⟩
            · rw [Bool.not_eq_true] at h2
              rcases hdir : direct
              · simp only [initFailAnalyze, hc, hm, h0, h1, h2, Bool.false_eq_true, if_false]
                exact Or.inr ⟨_, rfl, goodResult_initFailedDict r⟩
              · simp only [initFailAnalyze, hc, hm, h0, h1, h2, Bool.false_eq_true, if_false, if_true]
                exact Or.inl ⟨trivial, trivial⟩
        · simp only [initFailAnalyze, hc, hm, h0, Bool.false_eq_true, if_false]
          exact Or.inr ⟨_, rfl, goodResult_initFailedDict r⟩
        · simp only [initFailAnalyze, hc, hm, h0, Bool.false_eq_true, if_false]
          exact Or.inr ⟨_, rfl, goodResult_initFailedDict r⟩
        · simp only [initFailAnalyze, hc, hm, h0, Bool.false_eq_true, if_false]
          exact Or.inr ⟨_, rfl, goodResult_initFailedDict r⟩
    · simp only [initFailAnalyze, hc]
      exact Or.inr ⟨_, rfl, goodResult_initFailedDict r⟩
    · simp only [initFailAnalyze, hc]
      exact Or.inr ⟨_, rfl, goodResult_initFailedDict r⟩
    · simp only [initFailAnalyze, hc]
      exact Or.inr ⟨_, rfl, goodResult_initFailedDict r⟩

lemma initFailAction_cases (direct : Bool) (privacy : String) (r : ApiResponse) :
    (initFailAction direct privacy r = .fallback ∧ direct = true)
    ∨ ∃ d, initFailAction direct privacy r = .ret d ∧ goodResult d := by
  rcases hj : r.json with _ | j
  · simp only [initFailAction, hj]
    exact Or.inr ⟨_, rfl, goodResult_initFailedDict r⟩
  · rcases he : alookup j "error" with _ | v
    · simp only [initFailAction, hj, he]
      exact initFailAnalyze_cases direct privacy r []
    · rcases v with _ | s | m | b | errObj
      · simp only [initFailAction, hj, he]
        exact Or.inr ⟨_, rfl, goodResult_initFailedDict r⟩
      · simp only [initFailAction, hj, he]
        exact Or.inr ⟨_, rfl, goodResult_initFailedDict r⟩
      · simp only [initFailAction, hj, he]
        exact Or.inr ⟨_, rfl, goodResult_initFailedDict r⟩
      · simp only [initFailAction, hj, he]
        exact Or.inr ⟨_, rfl, goodResult_initFailedDict r⟩
      · simp only [initFailAction, hj, he]
        exact initFailAnalyze_cases direct privacy r errObj

lemma not_mem_init_of_countInit_zero {tr : List NetCall} (h : countInit tr = 0)
    (u : String) (b : JVal) : NetCall.initPost u b ∉ tr := by
  intro hm
  have h2 := List.countP_eq_zero.mp h _ hm
  simp at h2

lemma RunOK_of_empty (p : UploadParams) (env : Env) (d : PyDict) (hd : goodResult d) :
    RunOK p env (d, []) :=
  ⟨hd, by simp, by simp, by simp, by simp, by simp⟩

lemma RunOK_of_init_ret (p : UploadParams) (env : Env) (d : PyDict) (n : Nat)
    (hn : env.fileSize = .ok n) (u : String) (b : JVal)
    (hb : b = initDataDirect p n ∨ b = initDataInbox n) (hd : goodResult d) :
    RunOK p env (d, [NetCall.initPost u b]) := by
  refine ⟨hd, by simp, by simp, by simp, ?_, by simp⟩
  intro u' b' hm
  simp only [List.mem_singleton, NetCall.initPost.injEq] at hm
  exact ⟨n, hn, by rw [hm.2]; exact hb⟩

lemma RunOK_of_stage (p : UploadParams) (env : Env) (n : Nat)
    (hn : env.fileSize = .ok n) (u : String) (b : JVal)
    (hb : b = initDataDirect p n ∨ b = initDataInbox n)
    (res : PyDict × List NetCall) (hs : StageOK n env res) :
    RunOK p env (res.1, NetCall.initPost u b :: res.2) := by
  obtain ⟨hg, hci, hcp, hhd, hpf⟩ := hs
  refine ⟨hg, ?_, ?_, ?_, ?_, ?_⟩
  · simp [hci]
  · simpa using hcp
  · intro u' h' hm
    rcases List.mem_cons.mp hm with heq | hmem
    · exact absurd heq (by simp)
    · exact ⟨n, hn, hhd u' h' hmem⟩
  · intro u' b' hm
    rcases List.mem_cons.mp hm with heq | hmem
    · rw [NetCall.initPost.injEq] at heq
      exact ⟨n, hn, by rw [heq.2]; exact hb⟩
    · exact absurd hmem (not_mem_init_of_countInit_zero hci u' b')
  · intro ur hur hacc hex
    apply hpf ur hur hacc
    rcases hex with ⟨u', h', hm⟩
    rcases List.mem_cons.mp hm with heq | hmem
    · exact absurd heq (by simp)
    · exact ⟨u', h', hmem⟩

lemma uploadOnce_cases (direct : Bool) (p : UploadParams) (sess : PyDict) (env : Env)
    (fb : PyDict × List NetCall) :
    (∃ n, env.fileSize = .ok n ∧ direct = true
       ∧ uploadOnce direct p sess env fb
           = (fb.1, NetCall.initPost CONTENT_INIT_URL (initDataDirect p n) :: fb.2))
    ∨ RunOK p env (uploadOnce direct p sess env fb) := by
  by_cases hauth : pyTruthyJ ((alookup sess "access_token").getD .jnull) = true
  · rcases hn : env.fileSize with e | n
    · right
      simp only [uploadOnce, hauth, hn, if_true]
      exact RunOK_of_empty _ _ _ (goodResult_excDict e)
    · rcases hdir : direct
      · -- inbox pass
        rcases hinit : env.inboxInit with e | r
        · right
          simp only [uploadOnce, hauth, hn, hinit, if_true, Bool.false_eq_true, if_false]
          exact RunOK_of_init_ret p env _ n hn _ _ (Or.inr rfl) (goodResult_excDict e)
        · by_cases hst : r.status = 200
          · right
            simp only [uploadOnce, hauth, hn, hinit, hst, if_true, Bool.false_eq_true, if_false]
            rcases afterInitOk_cases false env n fb r with ⟨_, hff⟩ | hs
            · cases hff
            · exact RunOK_of_stage p env n hn _ _ (Or.inr rfl) _ hs
          · rcases initFailAction_cases false p.privacy_level r with ⟨_, hff⟩ | ⟨d, hact, hgood⟩
            · cases hff
            · right
              simp only [uploadOnce, hauth, hn, hinit, if_true, if_neg hst, hact,
                         Bool.false_eq_true, if_false]
              exact RunOK_of_init_ret p env d n hn _ _ (Or.inr rfl) hgood
      · -- direct pass
        rcases hinit : env.directInit with e | r
        · right
          simp only [uploadOnce, hauth, hn, hinit, if_true]
          exact RunOK_of_init_ret p env _ n hn _ _ (Or.inl rfl) (goodResult_excDict e)
        · by_cases hst : r.status = 200
          · rcases afterInitOk_cases true env n fb r with ⟨heq, _⟩ | hs
            · left
              refine ⟨n, rfl, rfl, ?_⟩
              simp only [uploadOnce, hauth, hn, hinit, hst, if_true, heq]
            · right
              simp only [uploadOnce, hauth, hn, hinit, hst, if_true]
              exact RunOK_of_stage p env n hn _ _ (Or.inl rfl) _ hs
          · rcases initFailAction_cases true p.privacy_level r with ⟨hact, _⟩ | ⟨d, hact, hgood⟩
            · left
              refine ⟨n, rfl, rfl, ?_⟩
              simp only [uploadOnce, hauth, hn, hinit, if_true, if_neg hst, hact]
            · right
              simp only [uploadOnce, hauth, hn, hinit, if_true, if_neg hst, hact]
              exact RunOK_of_init_ret p env d n hn _ _ (Or.inl rfl) hgood
  · right
    simp only [uploadOnce, if_neg hauth]
    exact RunOK_of_empty _ _ _ (goodResult_mkError "Not authenticated")

lemma upload_facts (p : UploadParams) (direct : Bool) (sess : PyDict) (env : Env) :
    goodResult (upload_video_to_tiktok p direct sess env).1
    ∧ countInit (upload_video_to_tiktok p direct sess env).2 ≤ 2
    ∧ countPut (upload_video_to_tiktok p direct sess env).2 ≤ 1
    ∧ (∀ u h, NetCall.uploadPut u h ∈ (upload_video_to_tiktok p direct sess env).2 →
         ∃ m, env.fileSize = .ok m ∧ h = upload_headers m)
    ∧ (∀ u b, NetCall.initPost u b ∈ (upload_video_to_tiktok p direct sess env).2 →
         ∃ m, env.fileSize = .ok m ∧ (b = initDataDirect p m ∨ b = initDataInbox m))
    ∧ (∀ ur, env.uploadPut = .ok ur → putStatusAccepted ur.status = false →
         (∃ u h, NetCall.uploadPut u h ∈ (upload_video_to_tiktok p direct sess env).2) →
         (upload_video_to_tiktok p direct sess env).1 = uploadFailedDict ur) := by
  rcases hdir : direct
  · simp only [upload_video_to_tiktok, Bool.false_eq_true, if_false]
    rcases uploadOnce_cases false p sess env ([], []) with ⟨n, _, hff, _⟩ | hr
    · cases hff
    · obtain ⟨hg, hci, hcp, hput, hinit, hpf⟩ := hr
      exact ⟨hg, le_trans hci (by omega), hcp, hput, hinit, hpf⟩
  · simp only [upload_video_to_tiktok, if_true]
    rcases uploadOnce_cases false p sess env ([], []) with ⟨n, _, hff, _⟩ | hfbOK
    · cases hff
    · obtain ⟨hfg, hfci, hfcp, hfput, hfinit, hfpf⟩ := hfbOK
      rcases uploadOnce_cases true p sess env (uploadOnce false p sess env ([], [])) with
        ⟨n, hn, _, heq⟩ | hr
      · rw [heq]
        refine ⟨hfg, ?_, ?_, ?_, ?_, ?_⟩
        · simp only [countInit_cons, isInitCall_initPost, if_true]
          omega
        · simpa using hfcp
        · intro u h hm
          rcases List.mem_cons.mp hm with hq | hmem
          · exact absurd hq (by simp)
          · exact hfput u h hmem
        · intro u b hm
          rcases List.mem_cons.mp hm with hq | hmem
          · rw [NetCall.initPost.injEq] at hq
            exact ⟨n, hn, Or.inl (by rw [hq.2])⟩
          · exact hfinit u b hmem
        · intro ur hur hacc hex
          apply hfpf ur hur hacc
          rcases hex with ⟨u, h, hm⟩
          rcases List.mem_cons.mp hm with hq | hmem
          · exact absurd hq (by simp)
          · exact ⟨u, h, hmem⟩
      · obtain ⟨hg, hci, hcp, hput, hinit, hpf⟩ := hr
        exact ⟨hg, le_trans hci (by omega), hcp, hput, hinit, hpf⟩

/-! ## Claim theorems -/

lemma stateOkB_true_iff (sess : PyDict) (st : Option String) :
    stateOkB sess st = true
    ↔ ∃ s, st = some s ∧ s ≠ "" ∧ alookup sess "oauth_state" = some (.jstr s) := by
  unfold stateOkB
  rcases h : alookup sess "oauth_state" with _ | v
  · simp
  · rcases v with _ | s | m | b | o <;> rcases st with _ | t <;>
      simp [pyTruthyJ, jvalEqOptStr] <;> aesop

lemma storedState_of_stateOkB {sess : PyDict} {st : Option String}
    (h : stateOkB sess st = true) : st ≠ none ∧ st = storedState sess := by
  obtain ⟨s, hst, _, hlk⟩ := (stateOkB_true_iff sess st).mp h
  subst hst
  exact ⟨by simp, by simp [storedState, hlk]⟩

lemma alookup_dictSet (d : PyDict) (k k2 : String) (v : JVal) :
    alookup (dictSet d k v) k2 = if k = k2 then some v else alookup d k2 := by
  induction d with
  | nil => simp [dictSet, alookup]
  | cons p rest ih =>
    obtain ⟨k3, w⟩ := p
    by_cases h3 : k3 = k
    · subst h3
      by_cases h2 : k3 = k2 <;> simp [dictSet, alookup, h2]
    · by_cases h2 : k3 = k2
      · subst h2
        have hk : ¬ k = k3 := fun hh => h3 hh.symm
        simp [dictSet, alookup, h3, hk]
      · simp [dictSet, alookup, h3, h2, ih]

lemma putStatusAccepted_2xx {s : Nat} (h : putStatusAccepted s = true) :
    200 ≤ s ∧ s < 300 := by
  unfold putStatusAccepted at h
  simp only [Bool.or_eq_true, beq_iff_eq] at h
  rcases h with (h | h) | (h | h) <;> omega

/-- C1: a `GET /callback` whose `state` query parameter is absent or
    different from the oauth state most recently stored in the session is
    answered with HTTP 400 and makes no outbound network call (in
    particular no token-exchange POST). -/
theorem C1_state_mismatch_rejected_before_network (args : CallbackArgs) (sess : PyDict)
    (resp : ApiResponse)
    (h : args.state = none ∨ args.state ≠ storedState sess) :
    (callback args sess resp).1.status = 400 ∧ (callback args sess resp).2.2 = [] := by
  have hstate : stateOkB sess args.state = false := by
    rcases hb : stateOkB sess args.state
    · rfl
    · obtain ⟨hne, heq⟩ := storedState_of_stateOkB hb
      rcases h with h | h
      · exact absurd h hne
      · exact absurd heq h
  unfold callback
  rcases args.error with _ | e
  · rcases hc : args.code with _ | c
    · exact ⟨rfl, rfl⟩
    · by_cases hce : c = ""
      · subst hce; exact ⟨rfl, rfl⟩
      · have : (!(c == "")) = true := by simp [hce]
        simp only [this, if_true, hstate, Bool.false_eq_true, if_false]
        exact ⟨trivial, trivial⟩
  · exact ⟨rfl, rfl⟩

/-- Witness for C1 at a concrete mismatching state. -/
theorem C1_witness :
    (callback ⟨none, some "c", some "x"⟩ [("oauth_state", .jstr "y")] respC4).1.status = 400
    ∧ (callback ⟨none, some "c", some "x"⟩ [("oauth_state", .jstr "y")] respC4).2.2 = [] :=
  C1_state_mismatch_rejected_before_network _ _ _
    (Or.inr (by simp [storedState, alookup]))

/-- C9: the verification file server serves a file's contents as
    `text/plain` only for names ending in `.txt`; any other name is a 404,
    as is a missing callback directory or a missing file. -/
theorem C9_verify_server_txt_only (fs : VerifyFS) (fn : String) :
    (strEndsWith fn ".txt" = false → (serve_callback_file fs fn).status = 404)
    ∧ (fs.dirExists = false → (serve_callback_file fs fn).status = 404)
    ∧ (alookup fs.files fn = none → (serve_callback_file fs fn).status = 404)
    ∧ (∀ c, strEndsWith fn ".txt" = true → fs.dirExists = true →
         alookup fs.files fn = some c →
         serve_callback_file fs fn = ⟨200, "text/plain", c⟩) := by
  refine ⟨?_, ?_, ?_, ?_⟩
  · intro h; simp [serve_callback_file, h]
  · intro h
    by_cases he : strEndsWith fn ".txt" <;> simp [serve_callback_file, he, h]
  · intro h
    by_cases he : strEndsWith fn ".txt" <;>
      by_cases hd : fs.dirExists <;> simp [serve_callback_file, he, hd, h]
  · intro c he hd hf
    simp [serve_callback_file, he, hd, hf]

/-- Witness for C9 at a present `.txt` file. -/
theorem C9_witness :
    serve_callback_file fsW "verify.txt" = ⟨200, "text/plain", "tiktok-site-verification=abc"⟩ :=
  (C9_verify_server_txt_only fsW "verify.txt").2.2.2 _ rfl rfl rfl

/-- C10: `upload_video_to_tiktok` always returns a dict — either one
    with an `error` entry or one with `success: True` and a
    `publish_id` — for every session, file behaviour and network
    behaviour; exceptions raised by any modelled effect are converted to
    error dicts, never propagated. -/
theorem C10_always_returns_result_dict (p : UploadParams) (direct : Bool)
    (sess : PyDict) (env : Env) :
    (alookup (upload_video_to_tiktok p direct sess env).1 "error").isSome
    ∨ (alookup (upload_video_to_tiktok p direct sess env).1 "success" = some (.jbool true)
       ∧ ∃ pid, alookup (upload_video_to_tiktok p direct sess env).1 "publish_id"
           = some (.jstr pid)) :=
  (upload_facts p direct sess env).1

/-- C7: a binary-upload PUT response outside the 2xx range makes the whole
    call fail with the `Upload failed` dict carrying the status and raw
    body, and the file is never re-sent: no execution performs more than
    one PUT. -/
theorem C7_nonsuccess_put_fatal_no_retry (p : UploadParams) (direct : Bool)
    (sess : PyDict) (env : Env) :
    countPut (upload_video_to_tiktok p direct sess env).2 ≤ 1
    ∧ (∀ ur, env.uploadPut = .ok ur → ¬(200 ≤ ur.status ∧ ur.status < 300) →
        (∃ u h, NetCall.uploadPut u h ∈ (upload_video_to_tiktok p direct sess env).2) →
        (upload_video_to_tiktok p direct sess env).1 = uploadFailedDict ur) := by
  obtain ⟨_, _, hcp, _, _, hpf⟩ := upload_facts p direct sess env
  refine ⟨hcp, ?_⟩
  intro ur hur h2xx hex
  apply hpf ur hur ?_ hex
  rcases hb : putStatusAccepted ur.status
  · rfl
  · exact absurd (putStatusAccepted_2xx hb) h2xx

/-- Witness for C7: a 403 PUT response yields the `Upload failed` dict. -/
theorem C7_witness :
    (upload_video_to_tiktok paramsW false sessionW envPutFailW).1
      = uploadFailedDict respPutFailW := by
  have h := C7_nonsuccess_put_fatal_no_retry paramsW false sessionW envPutFailW
  refine h.2 respPutFailW rfl (by decide) ?_
  refine ⟨"https://up.example/a", upload_headers 10, ?_⟩
  have ht : (upload_video_to_tiktok paramsW false sessionW envPutFailW).2
      = [NetCall.initPost INBOX_INIT_URL (initDataInbox 10),
         NetCall.uploadPut "https://up.example/a" (upload_headers 10)] := rfl
  rw [ht]
  simp

/-- C2: every INIT request issued for a file measured at N bytes declares
    `source_info.video_size = N`, `chunk_size = N`,
    `total_chunk_count = 1`, and every binary-upload PUT carries
    `Content-Length: N` and `Content-Range: bytes 0-(N-1)/N`; the declared
    size is never altered. -/
theorem C2_init_declares_exact_size (p : UploadParams) (direct : Bool) (sess : PyDict)
    (env : Env) (n : Nat) (hn : env.fileSize = .ok n) :
    (∀ u b, NetCall.initPost u b ∈ (upload_video_to_tiktok p direct sess env).2 →
        jGet b "source_info" = some (sourceInfo n)
        ∧ jGet (sourceInfo n) "video_size" = some (.jint n)
        ∧ jGet (sourceInfo n) "chunk_size" = some (.jint n)
        ∧ jGet (sourceInfo n) "total_chunk_count" = some (.jint 1))
    ∧ (∀ u h, NetCall.uploadPut u h ∈ (upload_video_to_tiktok p direct sess env).2 →
        alookup h "Content-Length" = some (toString n)
        ∧ alookup h "Content-Range"
            = some ("bytes 0-" ++ toString ((n : Int) - 1) ++ "/" ++ toString n)) := by
  obtain ⟨_, _, _, hput, hinit, _⟩ := upload_facts p direct sess env
  constructor
  · intro u b hm
    obtain ⟨m, hm1, hm2⟩ := hinit u b hm
    rw [hn] at hm1
    cases hm1
    refine ⟨?_, by simp [jGet, sourceInfo, alookup], by simp [jGet, sourceInfo, alookup],
            by simp [jGet, sourceInfo, alookup]⟩
    rcases hm2 with hb | hb <;> subst hb <;> simp [jGet, initDataDirect, initDataInbox, alookup]
  · intro u h hm
    obtain ⟨m, hm1, hm2⟩ := hput u h hm
    rw [hn] at hm1
    cases hm1
    subst hm2
    exact ⟨by simp [upload_headers, alookup], by simp [upload_headers, alookup]⟩

/-- Witness for C2 at a 10-byte file: the INIT body and PUT headers of the
    concrete run declare exactly 10. -/
theorem C2_witness :
    jGet (initDataInbox 10) "source_info" = some (sourceInfo 10)
    ∧ alookup (upload_headers 10) "Content-Length" = some "10"
    ∧ alookup (upload_headers 10) "Content-Range" = some "bytes 0-9/10" := by
  have h := C2_init_declares_exact_size paramsW false sessionW envPutFailW 10 rfl
  have ht : (upload_video_to_tiktok paramsW false sessionW envPutFailW).2
      = [NetCall.initPost INBOX_INIT_URL (initDataInbox 10),
         NetCall.uploadPut "https://up.example/a" (upload_headers 10)] := rfl
  have h1 := h.1 INBOX_INIT_URL (initDataInbox 10) (by rw [ht]; simp)
  have h2 := h.2 "https://up.example/a" (upload_headers 10) (by rw [ht]; simp)
  exact ⟨h1.1, h2.1, by rw [h2.2]; rfl⟩

/-- C6: once the callback reaches the token exchange, the exchange fails
    (HTTP 400 with the serialized provider response in the body) exactly
    when the provider returned a non-200 status or a body lacking
    `access_token`; otherwise the handler redirects (302). -/
theorem C6_token_exchange_failure_condition (args : CallbackArgs) (sess : PyDict)
    (resp : ApiResponse) (hex : callbackReachesExchange args sess = true) :
    ((resp.status ≠ 200 ∨ alookup (tokenJsonOf resp) "access_token" = none) →
       (callback args sess resp).1
         = ⟨400, "text/html",
            "❌ Token response missing access_token: " ++ jsonifyText (tokenJsonOf resp)⟩)
    ∧ (¬(resp.status ≠ 200 ∨ alookup (tokenJsonOf resp) "access_token" = none) →
       (callback args sess resp).1.status = 302)
    ∧ ((callback args sess resp).1.status = 400
       ↔ (resp.status ≠ 200 ∨ alookup (tokenJsonOf resp) "access_token" = none)) := by
  unfold callbackReachesExchange at hex
  simp only [Bool.and_eq_true] at hex
  obtain ⟨⟨he, hc⟩, hs⟩ := hex
  rcases hae : args.error with _ | e
  swap
  · rw [hae] at he; cases he
  rcases hac : args.code with _ | c
  · rw [hac] at hc; cases hc
  rw [hac] at hc
  have hcb : (!(c == "")) = true := hc
  by_cases hfail : resp.status ≠ 200 ∨ alookup (tokenJsonOf resp) "access_token" = none
  · have hcond : (resp.status == 200 && (alookup (tokenJsonOf resp) "access_token").isSome)
        = false := by
      rcases hfail with hf | hf
      · simp [hf]
      · simp [hf]
    have hres : (callback args sess resp).1
        = ⟨400, "text/html",
           "❌ Token response missing access_token: " ++ jsonifyText (tokenJsonOf resp)⟩ := by
      simp only [callback, hae, hac, hcb, if_true, hs, hcond, Bool.false_eq_true, if_false]
    exact ⟨fun _ => hres, fun hcontra => absurd hfail hcontra,
           ⟨fun _ => hfail, fun _ => by rw [hres]⟩⟩
  · push_neg at hfail
    obtain ⟨h200, hsome⟩ := hfail
    have hcond : (resp.status == 200 && (alookup (tokenJsonOf resp) "access_token").isSome)
        = true := by
      simp [h200, Option.isSome_iff_ne_none, hsome]
    have hres : (callback args sess resp).1.status = 302 := by
      simp only [callback, hae, hac, hcb, if_true, hs, hcond]
    refine ⟨fun hcontra => ?_, fun _ => hres, ?_⟩
    · rcases hcontra with hf | hf
      · exact absurd h200 hf
      · exact absurd hf hsome
    · constructor
      · intro h400
        rw [hres] at h400
        cases h400
      · intro hf
        rcases hf with hf | hf
        · exact absurd h200 hf
        · exact absurd hf hsome

/-- Witness for C6: a 500 token response produces the 400 page carrying
    the serialized raw body. -/
theorem C6_witness :
    (callback argsC4 sessC4 respC6).1
      = ⟨400, "text/html",
         "❌ Token response missing access_token: " ++ jsonifyText (tokenJsonOf respC6)⟩ :=
  (C6_token_exchange_failure_condition argsC4 sessC4 respC6 rfl).1 (Or.inl (by decide))

/-- C8: a submitted file larger than `MAX_FILE_SIZE` (287 MB) is rejected
    with an error response before any INIT or upload network call; a file
    at or under the limit passes the size guard. -/
theorem C8_size_guard_before_network (form : UploadForm) (sess : PyDict) (env : Env)
    (n : Nat) (hn : env.fileSize = .ok n) :
    (n > MAX_FILE_SIZE →
       (uploadRoutePost form sess env).2 = []
       ∧ ((uploadRoutePost form sess env).1.status = 400
          ∨ (uploadRoutePost form sess env).1.status = 401))
    ∧ (n ≤ MAX_FILE_SIZE → fileTooLarge n = false) := by
  constructor
  · intro hbig
    have hbig2 : fileTooLarge n = true := by simp only [fileTooLarge]; simp; omega
    unfold uploadRoutePost
    by_cases hauth : pyTruthyJ ((alookup sess "access_token").getD .jnull) = true
    · rcases hv : form.videoFilename with _ | fname
      · simp [hauth, hv]
      · by_cases hfe : fname = ""
        · simp [hauth, hv, hfe]
        · by_cases hb1 : (form.direct_post && pyStrip form.title == "") = true
          · simp [hauth, hv, hfe, hb1]
          · by_cases hb2 : strEndsWith (pyLower fname) ".mp4" = true
            · simp [hauth, hv, hfe, hb1, hb2, hn, hbig2]
            · simp [hauth, hv, hfe, hb1, hb2]
    · simp [hauth]
  · intro hle
    simp only [fileTooLarge]
    simp
    omega

/-- Witness for C8: a file one byte over the limit yields an error status
    with an empty trace. -/
theorem C8_witness :
    (uploadRoutePost formC8 sessionW envC8).2 = []
    ∧ ((uploadRoutePost formC8 sessionW envC8).1.status = 400
       ∨ (uploadRoutePost formC8 sessionW envC8).1.status = 401) :=
  (C8_size_guard_before_network formC8 sessionW envC8 (MAX_FILE_SIZE + 1) rfl).1 (by omega)

/-- C4 (counterexample): a fully successful exchange whose provider
    response carries `expires_in = 3600` stores only the access token and
    open_id; the resulting session holds no expiry at all. -/
theorem C4_counterexample :
    (callback argsC4 sessC4 respC4).1.status = 302
    ∧ alookup (tokenJsonOf respC4) "expires_in" = some (.jint 3600)
    ∧ (callback argsC4 sessC4 respC4).2.1
        = [("oauth_state", .jstr "st"), ("access_token", .jstr "tok"), ("open_id", .jstr "me")]
    ∧ alookup (callback argsC4 sessC4 respC4).2.1 "expires_at" = none :=
  ⟨rfl, rfl, rfl, rfl⟩

/-- C4 (amended): a successful exchange stores the access token and the
    open_id in the session and records no expiry: every other key keeps
    its previous value (an absent `expires_at` stays absent). -/
theorem C4_amended_no_expiry_stored (args : CallbackArgs) (sess : PyDict)
    (resp : ApiResponse) (hex : callbackReachesExchange args sess = true)
    (h200 : resp.status = 200) (v : JVal)
    (hak : alookup (tokenJsonOf resp) "access_token" = some v) :
    (callback args sess resp).2.1
      = dictSet (dictSet sess "access_token" v) "open_id"
          ((alookup (tokenJsonOf resp) "open_id").getD .jnull)
    ∧ ∀ k, k ≠ "access_token" → k ≠ "open_id" →
        alookup (callback args sess resp).2.1 k = alookup sess k := by
  unfold callbackReachesExchange at hex
  simp only [Bool.and_eq_true] at hex
  obtain ⟨⟨he, hc⟩, hs⟩ := hex
  rcases hae : args.error with _ | e
  swap
  · rw [hae] at he; cases he
  rcases hac : args.code with _ | c
  · rw [hac] at hc; cases hc
  rw [hac] at hc
  have hcb : (!(c == "")) = true := hc
  have hcond : (resp.status == 200 && (alookup (tokenJsonOf resp) "access_token").isSome)
      = true := by
    simp [h200, hak]
  have hres : (callback args sess resp).2.1
      = dictSet (dictSet sess "access_token" v) "open_id"
          ((alookup (tokenJsonOf resp) "open_id").getD .jnull) := by
    simp only [callback, hae, hac, hcb, if_true, hs, hcond]
    rw [hak, Option.getD_some]
  refine ⟨hres, ?_⟩
  intro k hk1 hk2
  rw [hres, alookup_dictSet, alookup_dictSet,
      if_neg (fun hh => hk2 hh.symm), if_neg (fun hh => hk1 hh.symm)]

/-- Witness for C4 (amended) at the concrete successful exchange. -/
theorem C4_amended_witness :
    (callback argsC4 sessC4 respC4).2.1
      = dictSet (dictSet sessC4 "access_token" (.jstr "tok")) "open_id"
          ((alookup (tokenJsonOf respC4) "open_id").getD .jnull)
    ∧ alookup (callback argsC4 sessC4 respC4).2.1 "expires_at"
        = alookup sessC4 "expires_at" := by
  have h := C4_amended_no_expiry_stored argsC4 sessC4 respC4 rfl rfl (.jstr "tok") rfl
  exact ⟨h.1, h.2 "expires_at" (by decide) (by decide)⟩

/-- C3 (counterexample): both INIT shapes are attempted and both return
    403, yet the reported error is the specialized privacy-level message,
    which does not carry the last raw response body ("RAW_BODY_XYZ"). -/
theorem C3_counterexample :
    rC3direct.status = 403
    ∧ rC3inbox.status = 403
    ∧ countInit (upload_video_to_tiktok paramsW true sessionW envC3).2 = 2
    ∧ countPut (upload_video_to_tiktok paramsW true sessionW envC3).2 = 0
    ∧ (upload_video_to_tiktok paramsW true sessionW envC3).1
        = mkError ("Privacy Level Error: m. The privacy level \x27PUBLIC_TO_EVERYONE\x27 may not be available for your account.")
    ∧ strContains "Privacy Level Error: m. The privacy level \x27PUBLIC_TO_EVERYONE\x27 may not be available for your account." "RAW_BODY_XYZ" = false := by
  refine ⟨rfl, rfl, rfl, rfl, rfl, by decide⟩

/-- C3 (amended): the client never makes more than two INIT attempts, and
    when both shapes are attempted and both return plain 4xx errors (none
    matching the specially-handled unaudited_client / private_accounts /
    privacy_level_option_mismatch patterns) it stops and reports the
    `Init failed` dict carrying the last response's status and raw body. -/
theorem C3_amended_exhaustion (p : UploadParams) (sess : PyDict) (env : Env)
    (n : Nat) (r1 r2 : ApiResponse) (j1 e1 j2 e2 : List (String × JVal))
    (m1 c1 m2 c2 : String)
    (hauth : pyTruthyJ ((alookup sess "access_token").getD .jnull) = true)
    (hn : env.fileSize = .ok n)
    (h1 : env.directInit = .ok r1) (h1s : 400 ≤ r1.status) (h1s2 : r1.status < 500)
    (h1j : r1.json = some j1) (h1e : alookup j1 "error" = some (.jobj e1))
    (h1m : alookup e1 "message" = some (.jstr m1)) (h1c : alookup e1 "code" = some (.jstr c1))
    (h1u : strContains c1 "unaudited_client" = false)
    (h1p : strContains m1 "private_accounts" = false)
    (h1q : strContains c1 "privacy_level_option_mismatch" = false)
    (h2 : env.inboxInit = .ok r2) (h2s : 400 ≤ r2.status) (h2s2 : r2.status < 500)
    (h2j : r2.json = some j2) (h2e : alookup j2 "error" = some (.jobj e2))
    (h2m : alookup e2 "message" = some (.jstr m2)) (h2c : alookup e2 "code" = some (.jstr c2))
    (h2u : strContains c2 "unaudited_client" = false)
    (h2p : strContains m2 "private_accounts" = false)
    (h2q : strContains c2 "privacy_level_option_mismatch" = false) :
    (∀ q d s e, countInit (upload_video_to_tiktok q d s e).2 ≤ 2)
    ∧ upload_video_to_tiktok p true sess env
        = (initFailedDict r2,
           [NetCall.initPost CONTENT_INIT_URL (initDataDirect p n),
            NetCall.initPost INBOX_INIT_URL (initDataInbox n)]) := by
  refine ⟨fun q d s e => (upload_facts q d s e).2.1, ?_⟩
  have hact2 : initFailAction false p.privacy_level r2 = .ret (initFailedDict r2) := by
    simp only [initFailAction, h2j, h2e, initFailAnalyze, h2c, h2m, Option.getD_some,
               h2u, h2p, h2q, Bool.false_eq_true, if_false]
  have hst2 : ¬ r2.status = 200 := by omega
  have hfb : uploadOnce false p sess env ([], [])
      = (initFailedDict r2, [NetCall.initPost INBOX_INIT_URL (initDataInbox n)]) := by
    simp only [uploadOnce, hauth, hn, h2, if_true, Bool.false_eq_true, if_false,
               if_neg hst2, hact2]
  have hact1 : initFailAction true p.privacy_level r1 = .fallback := by
    simp only [initFailAction, h1j, h1e, initFailAnalyze, h1c, h1m, Option.getD_some,
               h1u, h1p, h1q, Bool.false_eq_true, if_false, if_true]
  have hst1 : ¬ r1.status = 200 := by omega
  show uploadOnce true p sess env (uploadOnce false p sess env ([], [])) = _
  rw [hfb]
  simp only [uploadOnce, hauth, hn, h1, if_true, if_neg hst1, hact1]

/-- Witness for C3 (amended): two generic 4xx INIT responses end in the
    `Init failed` dict for the second response after exactly two INIT
    calls. -/
theorem C3_amended_witness :
    upload_video_to_tiktok paramsW true sessionW envC3w
      = (initFailedDict rC3wb,
         [NetCall.initPost CONTENT_INIT_URL (initDataDirect paramsW 9),
          NetCall.initPost INBOX_INIT_URL (initDataInbox 9)]) :=
  (C3_amended_exhaustion paramsW sessionW envC3w 9 rC3wa rC3wb
      [("error", .jobj [("code", .jstr "err_one"), ("message", .jstr "mm")])]
      [("code", .jstr "err_one"), ("message", .jstr "mm")]
      [("error", .jobj [("code", .jstr "err_two"), ("message", .jstr "nn")])]
      [("code", .jstr "err_two"), ("message", .jstr "nn")]
      "mm" "err_one" "nn" "err_two"
      rfl rfl rfl (by decide) (by decide) rfl rfl rfl rfl rfl rfl rfl
      rfl (by decide) (by decide) rfl rfl rfl rfl rfl rfl rfl).2

/-- C5 (counterexample): in the example 5 MB scenario the only network
    calls are the INIT POST and the binary PUT — there is no status-fetch
    call — and the handler's final response is an HTML page, not JSON;
    the client's result dict has no `ok` entry. -/
theorem C5_counterexample :
    (uploadRoutePost formC5 sessC5 envC5).2
      = [NetCall.initPost CONTENT_INIT_URL (initDataDirect paramsC5 5242880),
         NetCall.uploadPut "https://upload.tiktok.example/u1" (upload_headers 5242880)]
    ∧ (uploadRoutePost formC5 sessC5 envC5).1
        = ⟨200, "text/html", directPostHtml "v_pub_777"⟩
    ∧ alookup (upload_video_to_tiktok paramsC5 true sessC5 envC5).1 "ok" = none :=
  ⟨rfl, rfl, rfl⟩

/-- C5 (amended): the 5 MB scenario performs exactly one INIT declaring
    video_size 5242880 and one PUT with Content-Length 5242880 to the
    returned upload_url, performs no status-fetch call, and ends with the
    client returning `success: True` and the publish_id, rendered into an
    HTML confirmation page showing that publish_id. -/
theorem C5_amended_scenario :
    (uploadRoutePost formC5 sessC5 envC5).2
      = [NetCall.initPost CONTENT_INIT_URL (initDataDirect paramsC5 5242880),
         NetCall.uploadPut "https://upload.tiktok.example/u1" (upload_headers 5242880)]
    ∧ jGet (initDataDirect paramsC5 5242880) "source_info" = some (sourceInfo 5242880)
    ∧ alookup (upload_headers 5242880) "Content-Length" = some "5242880"
    ∧ (upload_video_to_tiktok paramsC5 true sessC5 envC5).1 = successDirectDict "v_pub_777"
    ∧ alookup (successDirectDict "v_pub_777") "success" = some (.jbool true)
    ∧ alookup (successDirectDict "v_pub_777") "publish_id" = some (.jstr "v_pub_777")
    ∧ (uploadRoutePost formC5 sessC5 envC5).1
        = ⟨200, "text/html", directPostHtml "v_pub_777"⟩
    ∧ strContains (directPostHtml "v_pub_777") "v_pub_777" = true := by
  refine ⟨rfl, rfl, rfl, rfl, rfl, rfl, rfl, by decide⟩
